import Mathlib

/-!
Verification development for the portfolio site's canvas animation engines
(matrix rain and mouse-trail particles).  The JavaScript classes are shallowly
embedded: numeric values are modelled as rationals (or reals where the code
uses transcendental library functions), JS `undefined`/`NaN` propagation is
modelled with `Option`, and every random draw or timestamp consumed by the
code appears as an explicit parameter.
-/

namespace Portfolio

/-! ## Configuration validation (matrix-simple-fixed.js, class MatrixRain)

Model of `MatrixRain._validateConfig` / `defaultConfig` and the constructor's
merge `{...defaultConfig, ...validated}`.  A supplied option value is a JS
value: a number, a string, an array of strings (for `colors`; non-string array
elements never match the hex regex and are subsumed by arbitrary non-matching
strings), or anything else (`other`: booleans, objects, null, ...).  JS `NaN`
compares false with everything, so a NaN-valued option behaves exactly like
`other` here (every range test fails and the key is dropped). -/

inductive JsVal where
  | num (q : ℚ)
  | str (s : String)
  | strs (xs : List String)
  | other
deriving DecidableEq

/-- A user configuration object: each recognized key is either absent or bound
to an arbitrary JS value.  Keys outside the validator's switch are ignored by
the code and are not represented. -/
structure UserConfig where
  fontSize : Option JsVal := none
  speed : Option JsVal := none
  minDrops : Option JsVal := none
  maxDrops : Option JsVal := none
  density : Option JsVal := none
  fadeFactor : Option JsVal := none
  charset : Option JsVal := none
  colors : Option JsVal := none
  fpsLimit : Option JsVal := none
  resizeDebounce : Option JsVal := none

/-- Case `fontSize`/`speed`/`minDrops`/`maxDrops` of the validator switch:
`typeof value === 'number' && value > 0` then `Math.floor(value)`. -/
def vPosInt : Option JsVal → Option ℤ
  | some (JsVal.num q) => if 0 < q then some ⌊q⌋ else none
  | _ => none

/-- Case `density`/`fadeFactor`: `typeof value === 'number' && value >= 0 && value <= 1`. -/
def vUnitNum : Option JsVal → Option ℚ
  | some (JsVal.num q) => if 0 ≤ q ∧ q ≤ 1 then some q else none
  | _ => none

/-- Case `charset`: `typeof value === 'string' && value.length > 0`. -/
def vCharset : Option JsVal → Option String
  | some (JsVal.str s) => if 0 < s.length then some s else none
  | _ => none

/-- The regex `/^#[0-9A-F]{6}$/i` applied to one color entry. -/
def isHexColor (s : String) : Bool :=
  match s.data with
  | '#' :: rest =>
      rest.length == 6 &&
        rest.all fun c =>
          decide (('0' ≤ c ∧ c ≤ '9') ∨ ('A' ≤ c ∧ c ≤ 'F') ∨ ('a' ≤ c ∧ c ≤ 'f'))
  | _ => false

/-- Case `colors`: `Array.isArray(value) && value.every(c => /^#[0-9A-F]{6}$/i.test(c))`. -/
def vColors : Option JsVal → Option (List String)
  | some (JsVal.strs xs) => if xs.all isHexColor then some xs else none
  | _ => none

/-- Case `fpsLimit`/`resizeDebounce`: positive number, then
`Math.max(1, Math.min(value, 144))`. -/
def vClampNum : Option JsVal → Option ℚ
  | some (JsVal.num q) => if 0 < q then some (max 1 (min q 144)) else none
  | _ => none

/-- The partial object `validated` built by `_validateConfig` before merging. -/
structure VPartial where
  fontSize : Option ℤ
  speed : Option ℤ
  minDrops : Option ℤ
  maxDrops : Option ℤ
  density : Option ℚ
  fadeFactor : Option ℚ
  charset : Option String
  colors : Option (List String)
  fpsLimit : Option ℚ
  resizeDebounce : Option ℚ

/-- The per-key switch of `_validateConfig`, before the min/max reordering. -/
def validateBase (c : UserConfig) : VPartial :=
  { fontSize := vPosInt c.fontSize
    speed := vPosInt c.speed
    minDrops := vPosInt c.minDrops
    maxDrops := vPosInt c.maxDrops
    density := vUnitNum c.density
    fadeFactor := vUnitNum c.fadeFactor
    charset := vCharset c.charset
    colors := vColors c.colors
    fpsLimit := vClampNum c.fpsLimit
    resizeDebounce := vClampNum c.resizeDebounce }

/-- MatrixRain._validateConfig: the per-key switch followed by the
`minDrops <= maxDrops` reordering step (which reads defaults 30/80 for a key
that was dropped or absent):
`if ('minDrops' in validated || 'maxDrops' in validated) { ... }`. -/
def validateConfig (c : UserConfig) : VPartial :=
  if (validateBase c).minDrops.isSome || (validateBase c).maxDrops.isSome then
    { validateBase c with
      minDrops := some (min ((validateBase c).minDrops.getD 30)
        ((validateBase c).maxDrops.getD 80))
      maxDrops := some (max ((validateBase c).minDrops.getD 30)
        ((validateBase c).maxDrops.getD 80)) }
  else validateBase c

/-- The fully merged configuration held by the instance. -/
structure MergedConfig where
  fontSize : ℤ
  speed : ℤ
  minDrops : ℤ
  maxDrops : ℤ
  density : ℚ
  fadeFactor : ℚ
  charset : String
  colors : List String
  fpsLimit : ℚ
  resizeDebounce : ℚ
deriving DecidableEq

/-- Constructor merge `this.config = {...MatrixRain.defaultConfig, ...this._validateConfig(config)}`:
every key absent from the validated object falls back to `defaultConfig`. -/
def mergedConfig (c : UserConfig) : MergedConfig :=
  let v := validateConfig c
  { fontSize := v.fontSize.getD 18
    speed := v.speed.getD 30
    minDrops := v.minDrops.getD 30
    maxDrops := v.maxDrops.getD 80
    density := v.density.getD (9/10)
    fadeFactor := v.fadeFactor.getD (8/100)
    charset := v.charset.getD "01"
    colors := v.colors.getD ["#00ff41", "#00cc33", "#009900", "#00cc44"]
    fpsLimit := v.fpsLimit.getD 60
    resizeDebounce := v.resizeDebounce.getD 250 }

/-- Validity of a supplied value for the integer-valued keys, as the claim
phrases it (a positive number). -/
def validPosNum : JsVal → Bool
  | JsVal.num q => decide (0 < q)
  | _ => false

/-- Validity for `density`/`fadeFactor`: a number in [0, 1]. -/
def validUnitNum : JsVal → Bool
  | JsVal.num q => decide (0 ≤ q ∧ q ≤ 1)
  | _ => false

/-- Validity for `charset`: a non-empty string. -/
def validCharset : JsVal → Bool
  | JsVal.str s => decide (0 < s.length)
  | _ => false

/-- Validity for `colors`: an array whose entries all match the hex regex. -/
def validColors : JsVal → Bool
  | JsVal.strs xs => xs.all isHexColor
  | _ => false

/-- The JS test `!canvasId.trim()`: the trimmed string is falsy (empty)
exactly when every character of the string is whitespace. -/
def trimEmpty (s : String) : Bool := s.data.all fun c => c.isWhitespace

/-- MatrixRain constructor guard (lines 107-110): a non-string or
empty/whitespace-only `canvasId` throws before anything else runs; otherwise
the configuration is validated and merged.  The thrown `Error` is modelled as
`Except.error` carrying the message. -/
def matrixRainConstructor (canvasId : JsVal) (c : UserConfig) : Except String MergedConfig :=
  match canvasId with
  | JsVal.str s =>
      if trimEmpty s then Except.error "Canvas ID must be a non-empty string"
      else Except.ok (mergedConfig c)
  | _ => Except.error "Canvas ID must be a non-empty string"

/-! ## Column / drop count formulas (claim C1)

Two cited sites.  `MR2setupColumns` is `setupCanvas` of the full-window
MatrixRain variant (matrix-simple-fixed.js lines 695-702):
`columnWidth = fontSize * 0.8` and
`columns = Math.min(Math.max(Math.floor((width / columnWidth) * density), minDrops), maxDrops)`.
`MR1targetDrops` is `createDrops` of the canvas-id MatrixRain variant
(lines 279-282):
`Math.min(maxDrops, Math.max(minDrops, Math.floor(columns * density)))`. -/

def MR2columnWidth (fontSize : ℚ) : ℚ := fontSize * (8/10)

def MR2setupColumns (width fontSize density : ℚ) (minDrops maxDrops : ℤ) : ℤ :=
  min (max ⌊width / MR2columnWidth fontSize * density⌋ minDrops) maxDrops

def MR1targetDrops (columns : ℤ) (density : ℚ) (minDrops maxDrops : ℤ) : ℤ :=
  min maxDrops (max minDrops ⌊(columns : ℚ) * density⌋)

end Portfolio

namespace Portfolio

/-- Claim C1: for every container width, the column count produced by surface
setup equals `min(maxDrops, max(minDrops, floor(width / columnWidth * density)))`;
whenever the raw estimate is below `minDrops` (and `minDrops ≤ maxDrops`, the
configuration invariant) the count is exactly `minDrops`, and whenever the raw
estimate is above `maxDrops` the count is exactly `maxDrops`.  The
`createDrops` site computes the same clamp shape on its raw estimate. -/
theorem claim_C1 (width fontSize density : ℚ) (minDrops maxDrops : ℤ) :
    MR2setupColumns width fontSize density minDrops maxDrops =
      min maxDrops (max minDrops ⌊width / MR2columnWidth fontSize * density⌋) ∧
    (minDrops ≤ maxDrops →
      ⌊width / MR2columnWidth fontSize * density⌋ < minDrops →
      MR2setupColumns width fontSize density minDrops maxDrops = minDrops) ∧
    (maxDrops < ⌊width / MR2columnWidth fontSize * density⌋ →
      MR2setupColumns width fontSize density minDrops maxDrops = maxDrops) ∧
    (∀ columns : ℤ, MR1targetDrops columns density minDrops maxDrops =
      min maxDrops (max minDrops ⌊(columns : ℚ) * density⌋)) := by
  refine ⟨?_, ?_, ?_, fun _ => rfl⟩
  · unfold MR2setupColumns
    omega
  · intro hle hlt
    unfold MR2setupColumns
    omega
  · intro hgt
    unfold MR2setupColumns
    omega

/-- Witness for C1 at the spec's example configuration `minDrops = 30`,
`maxDrops = 80`, `density = 0.9`, `fontSize = 18`: width 100 gives raw
estimate 6 and count exactly 30; width 10000 gives raw estimate 625 and count
exactly 80. -/
theorem claim_C1_witness :
    (30 : ℤ) ≤ 80 ∧
    ⌊(100 : ℚ) / MR2columnWidth 18 * (9/10)⌋ < 30 ∧
    MR2setupColumns 100 18 (9/10) 30 80 = 30 ∧
    (80 : ℤ) < ⌊(10000 : ℚ) / MR2columnWidth 18 * (9/10)⌋ ∧
    MR2setupColumns 10000 18 (9/10) 30 80 = 80 := by
  refine ⟨by norm_num, ?_, ?_, ?_, ?_⟩
  · show ⌊(100 : ℚ) / MR2columnWidth 18 * (9/10)⌋ < 30
    norm_num [MR2columnWidth]
  · exact (claim_C1 100 18 (9/10) 30 80).2.1 (by norm_num)
      (by norm_num [MR2columnWidth])
  · show (80 : ℤ) < ⌊(10000 : ℚ) / MR2columnWidth 18 * (9/10)⌋
    norm_num [MR2columnWidth]
  · exact (claim_C1 10000 18 (9/10) 30 80).2.2.1
      (by norm_num [MR2columnWidth])

/-! ### Validation facts used by claims C4 and C10 -/

theorem validateConfig_fontSize (c : UserConfig) :
    (validateConfig c).fontSize = vPosInt c.fontSize := by
  unfold validateConfig
  split <;> rfl

theorem validateConfig_speed (c : UserConfig) :
    (validateConfig c).speed = vPosInt c.speed := by
  unfold validateConfig
  split <;> rfl

theorem validateConfig_density (c : UserConfig) :
    (validateConfig c).density = vUnitNum c.density := by
  unfold validateConfig
  split <;> rfl

theorem validateConfig_fadeFactor (c : UserConfig) :
    (validateConfig c).fadeFactor = vUnitNum c.fadeFactor := by
  unfold validateConfig
  split <;> rfl

theorem validateConfig_charset (c : UserConfig) :
    (validateConfig c).charset = vCharset c.charset := by
  unfold validateConfig
  split <;> rfl

theorem validateConfig_colors (c : UserConfig) :
    (validateConfig c).colors = vColors c.colors := by
  unfold validateConfig
  split <;> rfl

theorem validateConfig_fpsLimit (c : UserConfig) :
    (validateConfig c).fpsLimit = vClampNum c.fpsLimit := by
  unfold validateConfig
  split <;> rfl

theorem validateConfig_resizeDebounce (c : UserConfig) :
    (validateConfig c).resizeDebounce = vClampNum c.resizeDebounce := by
  unfold validateConfig
  split <;> rfl

theorem validateBase_none_of_not_isSome (c : UserConfig)
    (h : ¬((validateBase c).minDrops.isSome || (validateBase c).maxDrops.isSome) = true) :
    vPosInt c.minDrops = none ∧ vPosInt c.maxDrops = none := by
  simp only [Bool.or_eq_true, not_or, Option.isSome_iff_exists, not_exists] at h
  constructor
  · cases hm : vPosInt c.minDrops with
    | none => rfl
    | some z => exact absurd hm (h.1 z)
  · cases hm : vPosInt c.maxDrops with
    | none => rfl
    | some z => exact absurd hm (h.2 z)

theorem validateConfig_minDrops (c : UserConfig) :
    (validateConfig c).minDrops =
      some (min ((vPosInt c.minDrops).getD 30) ((vPosInt c.maxDrops).getD 80)) ∨
    ((validateConfig c).minDrops = none ∧ vPosInt c.minDrops = none ∧
      vPosInt c.maxDrops = none) := by
  unfold validateConfig
  split
  case isTrue h => exact Or.inl rfl
  case isFalse h =>
    obtain ⟨h1, h2⟩ := validateBase_none_of_not_isSome c h
    exact Or.inr ⟨h1, h1, h2⟩

theorem validateConfig_maxDrops (c : UserConfig) :
    (validateConfig c).maxDrops =
      some (max ((vPosInt c.minDrops).getD 30) ((vPosInt c.maxDrops).getD 80)) ∨
    ((validateConfig c).maxDrops = none ∧ vPosInt c.minDrops = none ∧
      vPosInt c.maxDrops = none) := by
  unfold validateConfig
  split
  case isTrue h => exact Or.inl rfl
  case isFalse h =>
    obtain ⟨h1, h2⟩ := validateBase_none_of_not_isSome c h
    exact Or.inr ⟨h2, h1, h2⟩

theorem mergedConfig_minDrops (c : UserConfig) :
    (mergedConfig c).minDrops =
      min ((vPosInt c.minDrops).getD 30) ((vPosInt c.maxDrops).getD 80) := by
  show (validateConfig c).minDrops.getD 30 = _
  rcases validateConfig_minDrops c with h | ⟨h, hmn, hmx⟩
  · rw [h]; rfl
  · rw [h, hmn, hmx]; rfl

theorem mergedConfig_maxDrops (c : UserConfig) :
    (mergedConfig c).maxDrops =
      max ((vPosInt c.minDrops).getD 30) ((vPosInt c.maxDrops).getD 80) := by
  show (validateConfig c).maxDrops.getD 80 = _
  rcases validateConfig_maxDrops c with h | ⟨h, hmn, hmx⟩
  · rw [h]; rfl
  · rw [h, hmn, hmx]; rfl

theorem mergedConfig_fontSize (c : UserConfig) :
    (mergedConfig c).fontSize = (vPosInt c.fontSize).getD 18 := by
  show (validateConfig c).fontSize.getD 18 = _
  rw [validateConfig_fontSize]

theorem mergedConfig_speed (c : UserConfig) :
    (mergedConfig c).speed = (vPosInt c.speed).getD 30 := by
  show (validateConfig c).speed.getD 30 = _
  rw [validateConfig_speed]

theorem mergedConfig_density (c : UserConfig) :
    (mergedConfig c).density = (vUnitNum c.density).getD (9/10) := by
  show (validateConfig c).density.getD (9/10) = _
  rw [validateConfig_density]

theorem mergedConfig_fadeFactor (c : UserConfig) :
    (mergedConfig c).fadeFactor = (vUnitNum c.fadeFactor).getD (8/100) := by
  show (validateConfig c).fadeFactor.getD (8/100) = _
  rw [validateConfig_fadeFactor]

theorem mergedConfig_charset (c : UserConfig) :
    (mergedConfig c).charset = (vCharset c.charset).getD "01" := by
  show (validateConfig c).charset.getD "01" = _
  rw [validateConfig_charset]

theorem mergedConfig_colors (c : UserConfig) :
    (mergedConfig c).colors =
      (vColors c.colors).getD ["#00ff41", "#00cc33", "#009900", "#00cc44"] := by
  show (validateConfig c).colors.getD _ = _
  rw [validateConfig_colors]

theorem mergedConfig_fpsLimit (c : UserConfig) :
    (mergedConfig c).fpsLimit = (vClampNum c.fpsLimit).getD 60 := by
  show (validateConfig c).fpsLimit.getD 60 = _
  rw [validateConfig_fpsLimit]

theorem mergedConfig_resizeDebounce (c : UserConfig) :
    (mergedConfig c).resizeDebounce = (vClampNum c.resizeDebounce).getD 250 := by
  show (validateConfig c).resizeDebounce.getD 250 = _
  rw [validateConfig_resizeDebounce]

theorem vPosInt_of_invalid {v : JsVal} (h : validPosNum v = false) :
    vPosInt (some v) = none := by
  cases v <;> simp_all [vPosInt, validPosNum]

theorem vUnitNum_of_invalid {v : JsVal} (h : validUnitNum v = false) :
    vUnitNum (some v) = none := by
  cases v with
  | num q =>
      simp only [validUnitNum, decide_eq_false_iff_not] at h
      simp [vUnitNum, h]
  | str s => rfl
  | strs xs => rfl
  | other => rfl

theorem vCharset_of_invalid {v : JsVal} (h : validCharset v = false) :
    vCharset (some v) = none := by
  cases v <;> simp_all [vCharset, validCharset]

theorem vColors_of_invalid {v : JsVal} (h : validColors v = false) :
    vColors (some v) = none := by
  cases v <;> simp_all [vColors, validColors]

/-- Claim C4, counterexample.  The claim says an invalid option falls back to
its default while valid options are kept.  Supplying `minDrops = -5`
(invalid, dropped) together with `maxDrops = 10` (valid) makes the reordering
step assign `minDrops = min(default 30, 10) = 10` — not the default 30 — and
`maxDrops = 30` — not the supplied 10.  Independently, the valid
`resizeDebounce = 250` is clamped to 144 rather than kept. -/
theorem claim_C4_cex :
    validPosNum (JsVal.num (-5)) = false ∧
    validPosNum (JsVal.num 10) = true ∧
    (mergedConfig { minDrops := some (JsVal.num (-5)),
                    maxDrops := some (JsVal.num 10) }).minDrops = 10 ∧
    ((10 : ℤ) = 30 → False) ∧
    (mergedConfig { minDrops := some (JsVal.num (-5)),
                    maxDrops := some (JsVal.num 10) }).maxDrops = 30 ∧
    ((30 : ℤ) = 10 → False) ∧
    validPosNum (JsVal.num 250) = true ∧
    (mergedConfig { resizeDebounce := some (JsVal.num 250) }).resizeDebounce = 144 ∧
    ((144 : ℚ) = 250 → False) := by
  refine ⟨by decide, by decide, ?_, by decide, ?_, by decide, by decide, ?_, by norm_num⟩
  · rw [mergedConfig_minDrops]
    norm_num [vPosInt]
  · rw [mergedConfig_maxDrops]
    norm_num [vPosInt]
  · rw [mergedConfig_resizeDebounce]
    norm_num [vClampNum]

/-- Claim C4 as amended: configuration never fails as a whole (the merge is a
total function); every supplied option that is invalid in type or range is
dropped and replaced by its default, except that `minDrops`/`maxDrops` are
subsequently reordered: whenever either key was supplied, the merged pair is
the min/max of the two effective values (the validated value, or the default
30 resp. 80 where the key was dropped or absent), so an invalid `minDrops`
can receive the supplied `maxDrops` value instead of its default.  Valid keys
are kept up to the code's normalization: the integer keys are floored,
`fpsLimit`/`resizeDebounce` are clamped into [1, 144], and the min/max pair is
reordered.  In particular `minDrops ≤ maxDrops` always holds afterwards. -/
theorem claim_C4_amended (c : UserConfig) :
    (∀ v, c.fontSize = some v → validPosNum v = false → (mergedConfig c).fontSize = 18) ∧
    (∀ v, c.speed = some v → validPosNum v = false → (mergedConfig c).speed = 30) ∧
    (∀ v, c.density = some v → validUnitNum v = false → (mergedConfig c).density = 9/10) ∧
    (∀ v, c.fadeFactor = some v → validUnitNum v = false →
      (mergedConfig c).fadeFactor = 8/100) ∧
    (∀ v, c.charset = some v → validCharset v = false → (mergedConfig c).charset = "01") ∧
    (∀ v, c.colors = some v → validColors v = false →
      (mergedConfig c).colors = ["#00ff41", "#00cc33", "#009900", "#00cc44"]) ∧
    (∀ v, c.fpsLimit = some v → validPosNum v = false → (mergedConfig c).fpsLimit = 60) ∧
    (∀ v, c.resizeDebounce = some v → validPosNum v = false →
      (mergedConfig c).resizeDebounce = 250) ∧
    (∀ q, c.fontSize = some (JsVal.num q) → 0 < q → (mergedConfig c).fontSize = ⌊q⌋) ∧
    (∀ q, c.density = some (JsVal.num q) → 0 ≤ q → q ≤ 1 → (mergedConfig c).density = q) ∧
    (∀ s, c.charset = some (JsVal.str s) → 0 < s.length → (mergedConfig c).charset = s) ∧
    (∀ xs, c.colors = some (JsVal.strs xs) → xs.all isHexColor = true →
      (mergedConfig c).colors = xs) ∧
    (∀ q, c.fpsLimit = some (JsVal.num q) → 0 < q →
      (mergedConfig c).fpsLimit = max 1 (min q 144)) ∧
    ((mergedConfig c).minDrops =
      min ((vPosInt c.minDrops).getD 30) ((vPosInt c.maxDrops).getD 80)) ∧
    ((mergedConfig c).maxDrops =
      max ((vPosInt c.minDrops).getD 30) ((vPosInt c.maxDrops).getD 80)) ∧
    ((mergedConfig c).minDrops ≤ (mergedConfig c).maxDrops) := by
  refine ⟨?_, ?_, ?_, ?_, ?_, ?_, ?_, ?_, ?_, ?_, ?_, ?_, ?_,
    mergedConfig_minDrops c, mergedConfig_maxDrops c, ?_⟩
  · intro v hv hbad
    rw [mergedConfig_fontSize, hv, vPosInt_of_invalid hbad]; rfl
  · intro v hv hbad
    rw [mergedConfig_speed, hv, vPosInt_of_invalid hbad]; rfl
  · intro v hv hbad
    rw [mergedConfig_density, hv, vUnitNum_of_invalid hbad]
    rfl
  · intro v hv hbad
    rw [mergedConfig_fadeFactor, hv, vUnitNum_of_invalid hbad]
    rfl
  · intro v hv hbad
    rw [mergedConfig_charset, hv, vCharset_of_invalid hbad]; rfl
  · intro v hv hbad
    rw [mergedConfig_colors, hv, vColors_of_invalid hbad]; rfl
  · intro v hv hbad
    have hcl : vClampNum (some v) = none := by
      cases v <;> simp_all [vClampNum, validPosNum]
    rw [mergedConfig_fpsLimit, hv, hcl]; rfl
  · intro v hv hbad
    have hcl : vClampNum (some v) = none := by
      cases v <;> simp_all [vClampNum, validPosNum]
    rw [mergedConfig_resizeDebounce, hv, hcl]
    rfl
  · intro q hq hpos
    rw [mergedConfig_fontSize, hq]
    simp [vPosInt, hpos]
  · intro q hq h0 h1
    rw [mergedConfig_density, hq]
    simp [vUnitNum, h0, h1]
  · intro s hs hlen
    rw [mergedConfig_charset, hs]
    simp [vCharset, hlen]
  · intro xs hxs hall
    rw [mergedConfig_colors, hxs]
    simp [vColors, hall]
  · intro q hq hpos
    rw [mergedConfig_fpsLimit, hq]
    simp [vClampNum, hpos]
  · rw [mergedConfig_minDrops c, mergedConfig_maxDrops c]
    exact min_le_max

/-- Witness for the amended C4 at a concrete configuration: an invalid (string)
fontSize falls back to 18, a valid density 0.5 is kept, and the merged
min/max pair obeys the reordering equations. -/
theorem claim_C4_amended_witness :
    (mergedConfig { fontSize := some (JsVal.str "big"),
                    density := some (JsVal.num (1/2)) }).fontSize = 18 ∧
    (mergedConfig { fontSize := some (JsVal.str "big"),
                    density := some (JsVal.num (1/2)) }).density = 1/2 ∧
    (mergedConfig { fontSize := some (JsVal.str "big"),
                    density := some (JsVal.num (1/2)) }).minDrops ≤
      (mergedConfig { fontSize := some (JsVal.str "big"),
                      density := some (JsVal.num (1/2)) }).maxDrops := by
  have h := claim_C4_amended
    { fontSize := some (JsVal.str "big"), density := some (JsVal.num (1/2)) }
  exact ⟨h.1 _ rfl (by decide),
    h.2.2.2.2.2.2.2.2.2.1 (1/2) rfl (by norm_num) (by norm_num),
    h.2.2.2.2.2.2.2.2.2.2.2.2.2.2.2⟩

/-- Claim C9: constructing a MatrixRain with a canvasId that is not a string,
or is empty or whitespace-only, throws an Error — for every configuration
object, i.e. before any configuration validation or canvas lookup can run —
rather than producing an inert engine. -/
theorem claim_C9 (v : JsVal) (c : UserConfig)
    (h : ∀ s, v = JsVal.str s → trimEmpty s = true) :
    matrixRainConstructor v c = Except.error "Canvas ID must be a non-empty string" := by
  cases v with
  | str s =>
      have hs := h s rfl
      simp [matrixRainConstructor, hs]
  | num q => rfl
  | strs xs => rfl
  | other => rfl

/-- Witness for C9: a whitespace-only id and a numeric id both throw, for an
arbitrary concrete configuration. -/
theorem claim_C9_witness :
    matrixRainConstructor (JsVal.str "  ") { fontSize := some (JsVal.num 20) } =
      Except.error "Canvas ID must be a non-empty string" ∧
    matrixRainConstructor (JsVal.num 7) {} =
      Except.error "Canvas ID must be a non-empty string" := by
  constructor
  · exact claim_C9 (JsVal.str "  ") { fontSize := some (JsVal.num 20) }
      (by intro s hs; cases hs; decide)
  · exact claim_C9 (JsVal.num 7) {} (by intro s hs; cases hs)

/-- Claim C10: any user-supplied positive numeric `fpsLimit` or
`resizeDebounce` is clamped into [1, 144]; in particular a supplied
`resizeDebounce` of 250 becomes 144, although the default used when the key is
omitted is 250. -/
theorem claim_C10 (c : UserConfig) (q : ℚ) :
    (c.resizeDebounce = some (JsVal.num q) → 0 < q →
      (mergedConfig c).resizeDebounce = max 1 (min q 144)) ∧
    (c.fpsLimit = some (JsVal.num q) → 0 < q →
      (mergedConfig c).fpsLimit = max 1 (min q 144)) ∧
    (mergedConfig { resizeDebounce := some (JsVal.num 250) }).resizeDebounce = 144 ∧
    (mergedConfig {}).resizeDebounce = 250 := by
  refine ⟨?_, ?_, ?_, rfl⟩
  · intro hq hpos
    rw [mergedConfig_resizeDebounce, hq]
    simp [vClampNum, hpos]
  · intro hq hpos
    rw [mergedConfig_fpsLimit, hq]
    simp [vClampNum, hpos]
  · rw [mergedConfig_resizeDebounce]
    norm_num [vClampNum]

/-- Witness for C10 at `resizeDebounce = 250` and `fpsLimit = 30`. -/
theorem claim_C10_witness :
    (mergedConfig { resizeDebounce := some (JsVal.num 250),
                    fpsLimit := some (JsVal.num 30) }).resizeDebounce = max 1 (min 250 144) ∧
    (mergedConfig { resizeDebounce := some (JsVal.num 250),
                    fpsLimit := some (JsVal.num 30) }).fpsLimit = max 1 (min 30 144) := by
  have h := claim_C10
    { resizeDebounce := some (JsVal.num 250), fpsLimit := some (JsVal.num 30) }
  exact ⟨(h 250).1 rfl (by norm_num), (h 30).2.1 rfl (by norm_num)⟩

/-! ## Drop update (matrix-simple-fixed.js, MatrixRain.updateDrops, lines 347-372)

One update step for a single drop of the canvas-id MatrixRain variant.  A
trail cell holds a character (code point), an alpha and a palette color
(index); drops carry a fixed trail length `length` chosen at creation
(`5 + Math.floor(Math.random() * 15)`).  The random draws of a reset — the
fresh character and color of each of the `length` new cells, all created with
`alpha: 0` — are the function parameters `randChar`, `randColor`. -/

structure Cell where
  char : ℕ
  alpha : ℚ
  color : ℕ
deriving DecidableEq

structure Drop1 where
  x : ℚ
  y : ℚ
  speed : ℚ
  chars : List Cell
  length : ℕ
  lastUpdate : ℚ
deriving DecidableEq

/-- Body of the per-drop closure of `updateDrops`:
`drop.y += drop.speed * speed` with `speed = config.speed * (deltaTime / 16)`;
fade every cell except the head by `fadeFactor` (clamped at 0); then, when
`drop.y > canvas.height + drop.chars.length * fontSize`, assign
`drop.y = -drop.chars.length * fontSize` and rebuild
`drop.chars = Array(drop.length).fill(0).map(() => ({char, alpha: 0, color}))`. -/
def MR1updateDrop (speedCfg fadeFactor fontSize canvasHeight deltaTime : ℚ)
    (randChar randColor : ℕ → ℕ) (d : Drop1) : Drop1 :=
  let y1 := d.y + d.speed * (speedCfg * (deltaTime / 16))
  let chars1 := d.chars.mapIdx fun i c =>
    if 0 < i then { c with alpha := max 0 (c.alpha - fadeFactor) } else c
  if y1 > canvasHeight + (chars1.length : ℚ) * fontSize then
    { d with y := -(chars1.length : ℚ) * fontSize,
             chars := (List.range d.length).map fun j =>
               { char := randChar j, alpha := 0, color := randColor j } }
  else { d with y := y1, chars := chars1 }

/-- Evaluation of the reset branch: when the head has passed
`canvasHeight + chars.length * fontSize`, the update returns the same record
with `y := -(chars.length) * fontSize` and a rebuilt trail of `length` fresh
alpha-0 cells. -/
theorem MR1updateDrop_reset (speedCfg fadeFactor fontSize canvasHeight deltaTime : ℚ)
    (randChar randColor : ℕ → ℕ) (d : Drop1)
    (hy : d.y + d.speed * (speedCfg * (deltaTime / 16)) >
      canvasHeight + (d.chars.length : ℚ) * fontSize) :
    MR1updateDrop speedCfg fadeFactor fontSize canvasHeight deltaTime
      randChar randColor d =
    { d with y := -(d.chars.length : ℚ) * fontSize,
             chars := (List.range d.length).map fun j =>
               { char := randChar j, alpha := 0, color := randColor j } } := by
  simp only [MR1updateDrop]
  rw [List.length_mapIdx]
  exact if_pos hy

/-- Claim C3, counterexample.  A drop of trail length 5 whose head has passed
`canvasHeight + trailHeight` is reset by the next update: its `y` becomes
negative as claimed, but its character list is rebuilt with 5 fresh
fully-faded cells — it is NOT set to empty as the claim states. -/
theorem claim_C3_cex :
    (300 : ℚ) + 1 * (30 * (16 / 16)) > 100 + (5 : ℚ) * 18 ∧
    (MR1updateDrop 30 (8/100) 18 100 16 (fun _ => 7) (fun _ => 2)
      { x := 0, y := 300, speed := 1,
        chars := List.replicate 5 { char := 0, alpha := 0, color := 0 },
        length := 5, lastUpdate := 0 }).y = -90 ∧
    (MR1updateDrop 30 (8/100) 18 100 16 (fun _ => 7) (fun _ => 2)
      { x := 0, y := 300, speed := 1,
        chars := List.replicate 5 { char := 0, alpha := 0, color := 0 },
        length := 5, lastUpdate := 0 }).chars =
      List.replicate 5 { char := 7, alpha := 0, color := 2 } ∧
    ((MR1updateDrop 30 (8/100) 18 100 16 (fun _ => 7) (fun _ => 2)
      { x := 0, y := 300, speed := 1,
        chars := List.replicate 5 { char := 0, alpha := 0, color := 0 },
        length := 5, lastUpdate := 0 }).chars = [] → False) := by
  have hr := MR1updateDrop_reset 30 (8/100) 18 100 16 (fun _ => 7) (fun _ => 2)
    { x := 0, y := 300, speed := 1,
      chars := List.replicate 5 { char := 0, alpha := 0, color := 0 },
      length := 5, lastUpdate := 0 }
    (by norm_num)
  refine ⟨by norm_num, ?_, ?_, ?_⟩
  · rw [hr]; norm_num
  · rw [hr]; decide
  · rw [hr]; decide

/-- Claim C3 as amended: when a drop's head position passes
`canvasHeight + trailHeight` (its character count times the font size), the
next update sets its `y` to `-(chars.length) * fontSize` — strictly negative
whenever the drop had at least one character cell and the font size is
positive — and REPLACES its character list with `drop.length` fresh cells all
of alpha 0 (a fully faded trail), rather than emptying it; the same drop
record is mutated in place: `x`, `speed`, `length` and `lastUpdate` are
untouched. -/
theorem claim_C3_amended (speedCfg fadeFactor fontSize canvasHeight deltaTime : ℚ)
    (randChar randColor : ℕ → ℕ) (d : Drop1)
    (hfs : 0 < fontSize) (hne : d.chars ≠ [])
    (hy : d.y + d.speed * (speedCfg * (deltaTime / 16)) >
      canvasHeight + (d.chars.length : ℚ) * fontSize) :
    (MR1updateDrop speedCfg fadeFactor fontSize canvasHeight deltaTime
        randChar randColor d).y = -(d.chars.length : ℚ) * fontSize ∧
    (MR1updateDrop speedCfg fadeFactor fontSize canvasHeight deltaTime
        randChar randColor d).y < 0 ∧
    (MR1updateDrop speedCfg fadeFactor fontSize canvasHeight deltaTime
        randChar randColor d).chars =
      ((List.range d.length).map fun j =>
        { char := randChar j, alpha := 0, color := randColor j }) ∧
    (MR1updateDrop speedCfg fadeFactor fontSize canvasHeight deltaTime
        randChar randColor d).chars.length = d.length ∧
    (∀ c ∈ (MR1updateDrop speedCfg fadeFactor fontSize canvasHeight deltaTime
        randChar randColor d).chars, c.alpha = 0) ∧
    (MR1updateDrop speedCfg fadeFactor fontSize canvasHeight deltaTime
        randChar randColor d).x = d.x ∧
    (MR1updateDrop speedCfg fadeFactor fontSize canvasHeight deltaTime
        randChar randColor d).speed = d.speed ∧
    (MR1updateDrop speedCfg fadeFactor fontSize canvasHeight deltaTime
        randChar randColor d).length = d.length := by
  have hred := MR1updateDrop_reset speedCfg fadeFactor fontSize canvasHeight
    deltaTime randChar randColor d hy
  have hpos : (0 : ℚ) < (d.chars.length : ℚ) := by
    exact_mod_cast List.length_pos.mpr hne
  refine ⟨?_, ?_, ?_, ?_, ?_, ?_, ?_, ?_⟩
  · rw [hred]
  · rw [hred]
    show -(d.chars.length : ℚ) * fontSize < 0
    nlinarith
  · rw [hred]
  · rw [hred]; simp
  · rw [hred]
    intro c hc
    simp only [List.mem_map] at hc
    obtain ⟨j, _, hj⟩ := hc
    rw [← hj]
  · rw [hred]
  · rw [hred]
  · rw [hred]

/-- Witness for the amended C3 at the counterexample drop. -/
theorem claim_C3_amended_witness :
    (MR1updateDrop 30 (8/100) 18 100 16 (fun _ => 7) (fun _ => 2)
      { x := 0, y := 300, speed := 1,
        chars := List.replicate 5 { char := 0, alpha := 0, color := 0 },
        length := 5, lastUpdate := 0 }).y = -(5 : ℚ) * 18 ∧
    (MR1updateDrop 30 (8/100) 18 100 16 (fun _ => 7) (fun _ => 2)
      { x := 0, y := 300, speed := 1,
        chars := List.replicate 5 { char := 0, alpha := 0, color := 0 },
        length := 5, lastUpdate := 0 }).y < 0 ∧
    (MR1updateDrop 30 (8/100) 18 100 16 (fun _ => 7) (fun _ => 2)
      { x := 0, y := 300, speed := 1,
        chars := List.replicate 5 { char := 0, alpha := 0, color := 0 },
        length := 5, lastUpdate := 0 }).chars.length = 5 := by
  have h := claim_C3_amended 30 (8/100) 18 100 16 (fun _ => 7) (fun _ => 2)
    { x := 0, y := 300, speed := 1,
      chars := List.replicate 5 { char := 0, alpha := 0, color := 0 },
      length := 5, lastUpdate := 0 }
    (by norm_num) (by decide) (by norm_num)
  exact ⟨by rw [h.1]; norm_num, h.2.1, h.2.2.2.1⟩

/-! ## Trail-length invariant (src/unnamed/part_001, MatrixRain.updateDrops)

The unnamed matrix variant grows a drop's trail one cell at a time
(`drop.chars.unshift(...)`) and prunes it with a `while` loop popping from the
tail while the trail is longer than `drop.length` or the tail cell has left
the canvas.  Cells carry their own `y`.  One update step of a single drop is
embedded with all timestamps and random draws as explicit inputs. -/

structure P1Char where
  char : ℕ
  opacity : ℚ
  color : ℕ
  y : ℚ
deriving DecidableEq

structure P1Drop where
  x : ℚ
  y : ℚ
  speed : ℚ
  length : ℕ
  chars : List P1Char
  nextCharTime : ℚ
  lastUpdate : ℚ
  speedVariation : ℚ
  color : ℕ
deriving DecidableEq

/-- JS `expr || dflt` on a number: 0 is falsy and yields the default. -/
def jsOrDefault (q dflt : ℚ) : ℚ := if q = 0 then dflt else q

/-- The pruning loop
`while (drop.chars.length > 0 && (drop.chars.length > drop.length || drop.chars[last].y > height + fontSize)) drop.chars.pop()`
with `limit = height + fontSize`. -/
def popOld (len : ℕ) (limit : ℚ) (l : List P1Char) : List P1Char :=
  if hne : l = [] then l
  else if len < l.length ∨ limit < (l.getLast hne).y then popOld len limit l.dropLast
  else l
termination_by l.length
decreasing_by
  have hpos : 0 < l.length := List.length_pos.mpr hne
  simp only [List.length_dropLast]
  omega

theorem popOld_length_le (len : ℕ) (limit : ℚ) :
    ∀ (n : ℕ) (l : List P1Char), l.length ≤ n → (popOld len limit l).length ≤ len := by
  intro n
  induction n with
  | zero =>
      intro l hl
      have : l = [] := List.eq_nil_of_length_eq_zero (Nat.le_zero.mp hl)
      subst this
      rw [popOld]
      simp
  | succ n ih =>
      intro l hl
      rw [popOld]
      split
      case isTrue h => subst h; simp
      case isFalse h =>
        split
        case isTrue hcond =>
          apply ih
          have hpos : 0 < l.length := List.length_pos.mpr h
          simp only [List.length_dropLast]
          omega
        case isFalse hcond =>
          push_neg at hcond
          exact hcond.1

/-- External inputs of one `updateDrops` invocation, restricted to one drop:
the current timestamp, the frame's time delta, and the random draws consumed
by the head-cell insertion and by a potential reset. -/
structure P1Step where
  now : ℚ
  timeDelta : ℚ
  rchar : ℕ
  rcolor : ℕ
  rnext : ℚ
  ry : ℚ
  rx : ℚ
  rspeed : ℚ

/-- Per-drop body of `updateDrops` (part_001 lines 119-163):
move down by `speed * (timeDelta / 16)`; if
`now - (lastUpdate || 0) > (nextCharTime || 50)`, unshift a fresh head cell
(opacity 1, `y = drop.y`), draw `nextCharTime = 30 + random * 40`, set
`lastUpdate = now`, and run the pruning loop; then advance every cell's `y` by
`speed * 0.2 * (timeDelta / 16)` and recompute its opacity
`1 - (j / drop.length) * 0.9`; finally, if
`drop.y > height + drop.length * fontSize`, reset: random negative `y`,
random `x`, `chars = []`, random speed. -/
def P1updateDrop (height fontSize width columnWidth : ℚ) (st : P1Step)
    (d : P1Drop) : P1Drop :=
  let y1 := d.y + d.speed * (st.timeDelta / 16)
  let afterAdd :=
    if st.now - jsOrDefault d.lastUpdate 0 > jsOrDefault d.nextCharTime 50 then
      (popOld d.length (height + fontSize)
        ({ char := st.rchar, opacity := 1, color := st.rcolor, y := y1 } :: d.chars),
       30 + st.rnext * 40, st.now)
    else (d.chars, d.nextCharTime, d.lastUpdate)
  let chars2 := afterAdd.1.mapIdx fun j c =>
    { c with y := c.y + d.speed * (2/10) * (st.timeDelta / 16),
             opacity := 1 - ((j : ℚ) / (d.length : ℚ)) * (9/10) }
  if y1 > height + (d.length : ℚ) * fontSize then
    { d with y := -fontSize * (5 + st.ry * 20),
             x := st.rx * (width - columnWidth) + columnWidth / 2,
             chars := [],
             speed := 2 + st.rspeed * 5,
             nextCharTime := afterAdd.2.1,
             lastUpdate := afterAdd.2.2 }
  else
    { d with y := y1, chars := chars2,
             nextCharTime := afterAdd.2.1, lastUpdate := afterAdd.2.2 }

/-- Drop creation (part_001 `createDrops`, lines 96-106): empty trail,
`length = 3 + Math.floor(Math.random() * 15)`, staggered `lastUpdate`,
`nextCharTime = 0`. -/
def P1newDrop (x startY : ℚ) (now rspeed rlen rvariation : ℚ) (rcolor : ℕ)
    (rstagger : ℚ) : P1Drop :=
  { x := x
    y := startY
    speed := 1 + rspeed * 3
    length := (3 + ⌊rlen * 15⌋).toNat
    chars := []
    nextCharTime := 0
    lastUpdate := now - rstagger * 1000
    speedVariation := 9/10 + rvariation * (2/10)
    color := rcolor }

/-- One update step preserves `chars.length ≤ length` (and never changes
`length`). -/
theorem P1updateDrop_inv (height fontSize width columnWidth : ℚ) (st : P1Step)
    (d : P1Drop) (h : d.chars.length ≤ d.length) :
    (P1updateDrop height fontSize width columnWidth st d).chars.length ≤
      (P1updateDrop height fontSize width columnWidth st d).length := by
  simp only [P1updateDrop]
  split
  case isTrue hreset => simp
  case isFalse hreset =>
    simp only [List.length_mapIdx]
    split
    case isTrue hadd =>
      exact popOld_length_le d.length (height + fontSize) _ _ le_rfl
    case isFalse hadd => exact h

/-- Claim C7: for every drop (as created by `createDrops`) and after every
sequence of update steps, the number of character cells in the drop's trail
never exceeds that drop's configured trail length. -/
theorem claim_C7 (height fontSize width columnWidth : ℚ)
    (x startY now rspeed rlen rvariation : ℚ) (rcolor : ℕ) (rstagger : ℚ)
    (steps : List P1Step) :
    (steps.foldl (fun d st => P1updateDrop height fontSize width columnWidth st d)
        (P1newDrop x startY now rspeed rlen rvariation rcolor rstagger)).chars.length ≤
      (steps.foldl (fun d st => P1updateDrop height fontSize width columnWidth st d)
        (P1newDrop x startY now rspeed rlen rvariation rcolor rstagger)).length := by
  suffices hgen : ∀ (d : P1Drop), d.chars.length ≤ d.length →
      (steps.foldl (fun d st => P1updateDrop height fontSize width columnWidth st d)
        d).chars.length ≤
      (steps.foldl (fun d st => P1updateDrop height fontSize width columnWidth st d)
        d).length by
    exact hgen _ (by simp [P1newDrop])
  induction steps with
  | nil => intro d h; exact h
  | cons st rest ih =>
      intro d h
      exact ih _ (P1updateDrop_inv height fontSize width columnWidth st d h)

/-! ## Frame driver (matrix-simple-fixed.js, MatrixRain animate/start/stop)

State machine of the render-loop driver.  `pending` models the browser's
request-animation-frame queue restricted to this instance: the id of the
scheduled callback, if one is scheduled (the code schedules at most one at a
time: in `start` via the direct `animate()` call and in `animate` itself).
`updates`/`draws` count the `updateDrops`/`drawDrops` invocations observed so
far.  The timestamp of each callback is an input. -/

/-- JS truncation toward zero. -/
def rTrunc (q : ℚ) : ℤ := if 0 ≤ q then ⌊q⌋ else ⌈q⌉

/-- JS `%` on numbers: truncated-division remainder. -/
def jsMod (a b : ℚ) : ℚ := a - b * rTrunc (a / b)

structure MRDriver where
  isRunning : Bool
  animationId : Option ℕ
  pending : Option ℕ
  nextId : ℕ
  lastFrameTime : ℚ
  frameCount : ℕ
  lastFpsUpdate : ℚ
  fps : ℤ
  updates : ℕ
  draws : ℕ
  hasCtx : Bool
deriving DecidableEq

/-- MatrixRain.animate (lines 413-444): return if not running; skip the frame
(but reschedule) when `deltaTime < 1000 / fpsLimit`; otherwise bump the FPS
counter, set `lastFrameTime = now - (deltaTime % frameInterval)`, run update
and draw, and reschedule. -/
def MRanimate (fpsLimit : ℚ) (t : ℚ) (s : MRDriver) : MRDriver :=
  if !s.isRunning then s
  else
    let delta := t - s.lastFrameTime
    let interval := 1000 / fpsLimit
    if delta < interval then
      { s with animationId := some s.nextId, pending := some s.nextId,
               nextId := s.nextId + 1 }
    else
      let s1 := { s with frameCount := s.frameCount + 1 }
      let s2 :=
        if 1000 ≤ t - s1.lastFpsUpdate then
          { s1 with fps := round ((s1.frameCount : ℚ) * 1000 / (t - s1.lastFpsUpdate)),
                    frameCount := 0, lastFpsUpdate := t }
        else s1
      { s2 with lastFrameTime := t - jsMod delta interval,
                updates := s2.updates + 1, draws := s2.draws + 1,
                animationId := some s2.nextId, pending := some s2.nextId,
                nextId := s2.nextId + 1 }

/-- MatrixRain.start (lines 450-460): no-op when `animationId` is set or the
context is missing; otherwise record the timestamp baseline, reset the FPS
counter and invoke `animate` directly (the code calls `this.animate()` whose
timestamp sample is modelled by the same `t`). -/
def MRstart (fpsLimit : ℚ) (t : ℚ) (s : MRDriver) : MRDriver :=
  if s.animationId.isSome || !s.hasCtx then s
  else MRanimate fpsLimit t
    { s with isRunning := true, lastFrameTime := t, frameCount := 0, lastFpsUpdate := t }

/-- MatrixRain.stop (lines 466-471): cancel the scheduled callback and clear
`animationId`; `isRunning` is deliberately left untouched by the code. -/
def MRstop (s : MRDriver) : MRDriver :=
  if s.animationId.isSome then { s with pending := none, animationId := none } else s

/-- The browser fires the scheduled callback (if any) with timestamp `t`:
the callback is dequeued, then `animate` runs. -/
def MRfire (fpsLimit : ℚ) (t : ℚ) (s : MRDriver) : MRDriver :=
  match s.pending with
  | none => s
  | some _ => MRanimate fpsLimit t { s with pending := none }

/-- Reachable-state invariant: the browser's queue holds exactly the callback
recorded in `animationId`, and a scheduled callback implies the running flag
(the code never clears `isRunning`, and only `start` schedules from the
unscheduled state). -/
def MRWF (s : MRDriver) : Prop :=
  s.pending = s.animationId ∧ (s.animationId.isSome = true → s.isRunning = true)

theorem MRstop_animationId (s : MRDriver) : (MRstop s).animationId = none := by
  unfold MRstop
  split
  · rfl
  · next h => exact Option.not_isSome_iff_eq_none.mp (by simpa using h)

theorem MRstop_pending (s : MRDriver) (hwf : MRWF s) : (MRstop s).pending = none := by
  unfold MRstop
  split
  · rfl
  · next h =>
      rw [hwf.1]
      exact Option.not_isSome_iff_eq_none.mp (by simpa using h)

theorem MRstop_fields (s : MRDriver) :
    (MRstop s).updates = s.updates ∧ (MRstop s).draws = s.draws ∧
    (MRstop s).hasCtx = s.hasCtx := by
  unfold MRstop
  split <;> exact ⟨rfl, rfl, rfl⟩

theorem MRanimate_skip (fpsLimit t : ℚ) (s : MRDriver)
    (hrun : s.isRunning = true) (hlt : t - s.lastFrameTime < 1000 / fpsLimit) :
    MRanimate fpsLimit t s =
      { s with animationId := some s.nextId, pending := some s.nextId,
               nextId := s.nextId + 1 } := by
  simp only [MRanimate, hrun, Bool.not_true, Bool.false_eq_true, if_false]
  rw [if_pos hlt]

theorem MRanimate_run (fpsLimit t : ℚ) (s : MRDriver)
    (hrun : s.isRunning = true) (hge : 1000 / fpsLimit ≤ t - s.lastFrameTime) :
    (MRanimate fpsLimit t s).updates = s.updates + 1 ∧
    (MRanimate fpsLimit t s).draws = s.draws + 1 := by
  simp only [MRanimate, hrun, Bool.not_true, Bool.false_eq_true, if_false]
  rw [if_neg (not_lt.mpr hge)]
  split <;> exact ⟨rfl, rfl⟩

/-- Restart behaviour from any idle state (no scheduled callback, context
present): `start` at `t1` re-schedules, and the frame fired at `t2`, at least
one frame interval later, performs exactly one update and one draw. -/
theorem MRstart_resume (fpsLimit t1 t2 : ℚ) (x : MRDriver)
    (hid : x.animationId = none) (hctx : x.hasCtx = true)
    (hfl : 0 < fpsLimit) (hgap : 1000 / fpsLimit ≤ t2 - t1) :
    (MRfire fpsLimit t2 (MRstart fpsLimit t1 x)).updates = x.updates + 1 ∧
    (MRfire fpsLimit t2 (MRstart fpsLimit t1 x)).draws = x.draws + 1 := by
  have hintpos : 0 < 1000 / fpsLimit := by positivity
  have hstart : MRstart fpsLimit t1 x =
      MRanimate fpsLimit t1
        { x with isRunning := true, lastFrameTime := t1,
                 frameCount := 0, lastFpsUpdate := t1 } := by
    unfold MRstart
    rw [if_neg (by simp [hid, hctx])]
  have hskip := MRanimate_skip fpsLimit t1
    { x with isRunning := true, lastFrameTime := t1,
             frameCount := 0, lastFpsUpdate := t1 }
    rfl (by simpa using hintpos)
  rw [hstart, hskip]
  dsimp only [MRfire]
  constructor
  · rw [(MRanimate_run fpsLimit t2 _ rfl (by simpa using hgap)).1]
  · rw [(MRanimate_run fpsLimit t2 _ rfl (by simpa using hgap)).2]

/-- Claim C8: `stop()` is idempotent and cancels the pending frame callback,
so that after `stop()` the browser has nothing left to fire for this instance
and no update or draw occurs at any later time (in particular for one
animation-frame duration); `start()` is a no-op while `animationId` is set
(already running); and `start()` after `stop()` resumes: the restart
re-schedules a callback, and the first fired frame at least one frame interval
after the restart performs exactly one update and one draw. -/
theorem claim_C8 (fpsLimit t1 t2 t3 : ℚ) (s : MRDriver)
    (hwf : MRWF s) (hctx : s.hasCtx = true) (hfl : 0 < fpsLimit)
    (hgap : 1000 / fpsLimit ≤ t2 - t1) :
    MRstop (MRstop s) = MRstop s ∧
    (MRstop s).pending = none ∧
    MRfire fpsLimit t3 (MRstop s) = MRstop s ∧
    (s.animationId.isSome = true → MRstart fpsLimit t1 s = s) ∧
    (MRfire fpsLimit t2 (MRstart fpsLimit t1 (MRstop s))).updates = s.updates + 1 ∧
    (MRfire fpsLimit t2 (MRstart fpsLimit t1 (MRstop s))).draws = s.draws + 1 := by
  have hstopid : MRstop (MRstop s) = MRstop s := by
    conv_lhs => rw [MRstop]
    rw [MRstop_animationId s]
    simp
  have hpend := MRstop_pending s hwf
  have hnoop : MRfire fpsLimit t3 (MRstop s) = MRstop s := by
    unfold MRfire
    rw [hpend]
  have hstartnoop : s.animationId.isSome = true → MRstart fpsLimit t1 s = s := by
    intro h
    unfold MRstart
    rw [if_pos (by simp [h])]
  -- the resumed run
  have hfields := MRstop_fields s
  have hres := MRstart_resume fpsLimit t1 t2 (MRstop s)
    (MRstop_animationId s) (by rw [hfields.2.2]; exact hctx) hfl hgap
  refine ⟨hstopid, hpend, hnoop, hstartnoop, ?_, ?_⟩
  · rw [hres.1, hfields.1]
  · rw [hres.2, hfields.2.1]

/-- The driver state right after a successful constructor run (constructor
lines 118-128 initialize `animationId = null`, `lastFrameTime = 0`,
`frameCount = 0`, `lastFpsUpdate = 0`, `fps = 0`, `isRunning = false`; no
callback is scheduled yet, no update or draw has run, and `_init` obtained a
2D context). -/
def MRinitDriver : MRDriver :=
  { isRunning := false
    animationId := none
    pending := none
    nextId := 0
    lastFrameTime := 0
    frameCount := 0
    lastFpsUpdate := 0
    fps := 0
    updates := 0
    draws := 0
    hasCtx := true }

/-- Witness for C8 from the freshly constructed driver state at
`fpsLimit = 60`, restart at time 0 and a frame fired at time 100. -/
theorem claim_C8_witness :
    MRstop (MRstop MRinitDriver) = MRstop MRinitDriver ∧
    (MRfire 60 100 (MRstart 60 0 (MRstop MRinitDriver))).updates = 0 + 1 ∧
    (MRfire 60 100 (MRstart 60 0 (MRstop MRinitDriver))).draws = 0 + 1 := by
  have h := claim_C8 60 0 100 7 MRinitDriver
    ⟨rfl, by intro hh; simp [MRinitDriver] at hh⟩ rfl (by norm_num) (by norm_num)
  exact ⟨h.1, h.2.2.2.2.1, h.2.2.2.2.2⟩

/-! ## Event listeners and canvas ownership on destroy (claim C6)

The DOM listener registries are modelled per event type as lists of listener
identities; `addEventListener` is a no-op when the same listener is already
registered for the type, and `removeEventListener` erases it.  A listener is
either one of this instance's bound handlers (`LId.inst k`) or belongs to the
surrounding page (`LId.ext k`).

For the MouseTrail engine (mouse-trail-new.js): `createCanvas` appends the
owned canvas to `document.body`; `setupEventListeners` registers
`handleMouseMove` (inst 2), `handleResize` (inst 0) and
`handleVisibilityChange` (inst 1); `destroy` removes all three and detaches
the canvas from its parent.

For the MatrixRain engine (matrix-simple-fixed.js): `bindEvents` first calls
`unbindEvents`, then registers `handleResize` for both resize and
orientationchange (inst 0), `handleVisibilityChange` (inst 1), and an
anonymous unload closure (inst 3) that `unbindEvents` never removes; the
canvas is looked up by id, not owned, and `destroy` does not detach it. -/

inductive LId where
  | inst (k : ℕ)
  | ext (k : ℕ)
deriving DecidableEq

/-- `addEventListener`: registering an already-registered listener for the
same event type is a no-op. -/
def addL (l : LId) (xs : List LId) : List LId := if l ∈ xs then xs else xs ++ [l]

/-- `removeEventListener`. -/
def removeL (l : LId) (xs : List LId) : List LId := xs.erase l

structure MTDom where
  mousemove : List LId
  resize : List LId
  visibility : List LId
  canvasAttached : Bool
deriving DecidableEq

/-- MouseTrail `init` effects on the DOM: `createCanvas` (appends the owned
canvas) then `setupEventListeners`. -/
def MTinitDom (s : MTDom) : MTDom :=
  { mousemove := addL (LId.inst 2) s.mousemove
    resize := addL (LId.inst 0) s.resize
    visibility := addL (LId.inst 1) s.visibility
    canvasAttached := true }

/-- MouseTrail.destroy (mouse-trail-new.js lines 337-351): stop, remove the
mousemove/resize/visibilitychange listeners, and detach the canvas from its
parent when attached. -/
def MTdestroyDom (s : MTDom) : MTDom :=
  { mousemove := removeL (LId.inst 2) s.mousemove
    resize := removeL (LId.inst 0) s.resize
    visibility := removeL (LId.inst 1) s.visibility
    canvasAttached := false }

structure MRDom where
  resize : List LId
  orientation : List LId
  visibility : List LId
  unload : List LId
deriving DecidableEq

/-- MatrixRain.unbindEvents (lines 518-527): removes the resize,
orientationchange and visibilitychange handlers (and cancels the resize
timeout); the unload closure is not removed. -/
def MRunbindEvents (s : MRDom) : MRDom :=
  { resize := removeL (LId.inst 0) s.resize
    orientation := removeL (LId.inst 0) s.orientation
    visibility := removeL (LId.inst 1) s.visibility
    unload := s.unload }

/-- MatrixRain.bindEvents (lines 486-512): unbind first, then register. -/
def MRbindEvents (s : MRDom) : MRDom :=
  { resize := addL (LId.inst 0) (MRunbindEvents s).resize
    orientation := addL (LId.inst 0) (MRunbindEvents s).orientation
    visibility := addL (LId.inst 1) (MRunbindEvents s).visibility
    unload := addL (LId.inst 3) (MRunbindEvents s).unload }

/-- MatrixRain.destroy (lines 477-480): `stop()` then `unbindEvents()`. -/
def MRdestroyDom (s : MRDom) : MRDom := MRunbindEvents s

/-- A registry that contains only page listeners, none of this instance's. -/
def onlyExt (xs : List LId) : Prop := ∀ k, LId.inst k ∉ xs

theorem onlyExt_addL_ne (xs : List LId) (h : onlyExt xs) (j : ℕ) (k : ℕ)
    (hjk : j ≠ k) : LId.inst k ∉ addL (LId.inst j) xs := by
  unfold addL
  split
  · exact h k
  · intro hmem
    rcases List.mem_append.mp hmem with hmem | hmem
    · exact h k hmem
    · simp at hmem
      exact hjk hmem.symm

theorem notMem_removeL_addL (xs : List LId) (h : onlyExt xs) (j : ℕ) :
    LId.inst j ∉ removeL (LId.inst j) (addL (LId.inst j) xs) := by
  unfold addL removeL
  split
  case isTrue hmem => exact absurd hmem (h j)
  case isFalse hmem =>
    rw [List.erase_append_right _ (h j)]
    intro hin
    rcases List.mem_append.mp hin with hin | hin
    · exact h j hin
    · simp at hin

theorem notMem_removeL_of_onlyExt (xs : List LId) (h : onlyExt xs) (j k : ℕ) :
    LId.inst k ∉ removeL (LId.inst j) xs := by
  intro hin
  exact h k (List.mem_of_mem_erase hin)

/-- Claim C6: after `destroy()` on an instance initialized in a page whose
pre-existing listeners all belong to the page itself, no listener of that
instance remains registered for resize, visibility-change or pointer-move —
so no further such callbacks can fire for the instance — and the canvas owned
by the MouseTrail instance is detached.  (The MatrixRain variant owns no
canvas; its unload closure does survive `destroy`, but unload is not one of
the claimed listener kinds.) -/
theorem claim_C6 (s : MTDom) (t : MRDom)
    (hs1 : onlyExt s.mousemove) (hs2 : onlyExt s.resize) (hs3 : onlyExt s.visibility)
    (ht1 : onlyExt t.resize) (ht2 : onlyExt t.visibility) :
    (∀ k, LId.inst k ∉ (MTdestroyDom (MTinitDom s)).mousemove) ∧
    (∀ k, LId.inst k ∉ (MTdestroyDom (MTinitDom s)).resize) ∧
    (∀ k, LId.inst k ∉ (MTdestroyDom (MTinitDom s)).visibility) ∧
    (MTdestroyDom (MTinitDom s)).canvasAttached = false ∧
    (∀ k, LId.inst k ∉ (MRdestroyDom (MRbindEvents t)).resize) ∧
    (∀ k, LId.inst k ∉ (MRdestroyDom (MRbindEvents t)).visibility) := by
  refine ⟨?_, ?_, ?_, rfl, ?_, ?_⟩
  · intro k
    show LId.inst k ∉ removeL (LId.inst 2) (addL (LId.inst 2) s.mousemove)
    by_cases hk : k = 2
    · subst hk; exact notMem_removeL_addL s.mousemove hs1 2
    · intro hin
      exact onlyExt_addL_ne s.mousemove hs1 2 k (fun h2 => hk h2.symm)
        (List.mem_of_mem_erase hin)
  · intro k
    show LId.inst k ∉ removeL (LId.inst 0) (addL (LId.inst 0) s.resize)
    by_cases hk : k = 0
    · subst hk; exact notMem_removeL_addL s.resize hs2 0
    · intro hin
      exact onlyExt_addL_ne s.resize hs2 0 k (fun h2 => hk h2.symm)
        (List.mem_of_mem_erase hin)
  · intro k
    show LId.inst k ∉ removeL (LId.inst 1) (addL (LId.inst 1) s.visibility)
    by_cases hk : k = 1
    · subst hk; exact notMem_removeL_addL s.visibility hs3 1
    · intro hin
      exact onlyExt_addL_ne s.visibility hs3 1 k (fun h2 => hk h2.symm)
        (List.mem_of_mem_erase hin)
  · intro k
    show LId.inst k ∉ removeL (LId.inst 0)
      (addL (LId.inst 0) (removeL (LId.inst 0) t.resize))
    have hre : onlyExt (removeL (LId.inst 0) t.resize) := fun j =>
      notMem_removeL_of_onlyExt t.resize ht1 0 j
    by_cases hk : k = 0
    · subst hk; exact notMem_removeL_addL _ hre 0
    · intro hin
      exact onlyExt_addL_ne _ hre 0 k (fun h2 => hk h2.symm)
        (List.mem_of_mem_erase hin)
  · intro k
    show LId.inst k ∉ removeL (LId.inst 1)
      (addL (LId.inst 1) (removeL (LId.inst 1) t.visibility))
    have hre : onlyExt (removeL (LId.inst 1) t.visibility) := fun j =>
      notMem_removeL_of_onlyExt t.visibility ht2 1 j
    by_cases hk : k = 1
    · subst hk; exact notMem_removeL_addL _ hre 1
    · intro hin
      exact onlyExt_addL_ne _ hre 1 k (fun h2 => hk h2.symm)
        (List.mem_of_mem_erase hin)

/-- A sample page state for the MouseTrail engine: one unrelated listener per
registry, canvas not yet attached. -/
def pageMT : MTDom :=
  { mousemove := [LId.ext 0]
    resize := [LId.ext 1]
    visibility := []
    canvasAttached := false }

/-- A sample page state for the MatrixRain engine. -/
def pageMR : MRDom :=
  { resize := [LId.ext 5]
    orientation := []
    visibility := []
    unload := [] }

/-- Witness for C6 on a page with one external listener per registry. -/
theorem claim_C6_witness :
    (MTdestroyDom (MTinitDom pageMT)).canvasAttached = false ∧
    LId.inst 2 ∉ (MTdestroyDom (MTinitDom pageMT)).mousemove ∧
    LId.inst 0 ∉ (MRdestroyDom (MRbindEvents pageMR)).resize := by
  have h := claim_C6 pageMT pageMR
    (by intro k; simp [pageMT]) (by intro k; simp [pageMT]) (by intro k; simp [pageMT])
    (by intro k; simp [pageMR]) (by intro k; simp [pageMR])
  exact ⟨h.2.2.2.1, h.1 2, h.2.2.2.2.1 0⟩

/-! ## Particle pool (mouse-trail-new.js, MouseTrail createParticle/updateParticles)

Particle fields are JS numbers modelled as `Option ℝ`, where `none` stands
for `undefined` — and, under arithmetic, for `NaN`: any operation involving
`none` yields `none`, and every comparison against `none` is false.  This
matters because `createParticle`'s `Object.assign` never sets `fadeSpeed`,
so `p.opacity -= p.fadeSpeed * ...` always turns `opacity` into NaN and the
`p.opacity <= 0.01` half of the removal test never fires; particles die by
`life <= 0` alone.  Every `Math.random()` and timestamp is an explicit
parameter. -/

def jsAdd : Option ℝ → Option ℝ → Option ℝ
  | some a, some b => some (a + b)
  | _, _ => none

def jsSub : Option ℝ → Option ℝ → Option ℝ
  | some a, some b => some (a - b)
  | _, _ => none

def jsMul : Option ℝ → Option ℝ → Option ℝ
  | some a, some b => some (a * b)
  | _, _ => none

/-- JS `<=` on possibly-NaN numbers: false when either side is NaN. -/
noncomputable def jsLeB (a b : Option ℝ) : Bool :=
  match a, b with
  | some x, some y => if x ≤ y then true else false
  | _, _ => false

/-- JS `Math.atan2`. -/
noncomputable def jsAtan2 (y x : ℝ) : ℝ :=
  if 0 < x then Real.arctan (y / x)
  else if x < 0 then
    (if 0 ≤ y then Real.arctan (y / x) + Real.pi else Real.arctan (y / x) - Real.pi)
  else
    (if 0 < y then Real.pi / 2 else if y < 0 then -(Real.pi / 2) else 0)

structure MTConfig where
  maxParticles : ℕ
  particleLifetime : ℝ
  fontSize : ℝ
  colors : List String

structure MTParticle where
  x : Option ℝ
  y : Option ℝ
  vx : Option ℝ
  vy : Option ℝ
  size : Option ℝ
  baseSize : Option ℝ
  life : Option ℝ
  originalLife : Option ℝ
  opacity : Option ℝ
  rotation : Option ℝ
  rotationSpeed : Option ℝ
  createdAt : Option ℝ
  fadeSpeed : Option ℝ
  char : Option ℕ
  color : Option String

/-- The fresh object `{}`: every property reads as `undefined`. -/
def emptyParticle : MTParticle :=
  { x := none, y := none, vx := none, vy := none, size := none, baseSize := none
    life := none, originalLife := none, opacity := none, rotation := none
    rotationSpeed := none, createdAt := none, fadeSpeed := none, char := none
    color := none }

/-- Engine-level pointer state read by `createParticle`. -/
structure MouseState where
  mouseX : ℝ
  mouseY : ℝ
  velocityX : ℝ
  velocityY : ℝ

/-- The `Math.random()` draws consumed by one `createParticle` call, in
source order: position jitter (x, y), the three character draws, velocity
jitter (x, y), size, lifetime, color index, rotation, rotation speed. -/
structure ERand where
  jx : ℝ
  jy : ℝ
  c1 : ℝ
  c2 : ℝ
  c3 : ℝ
  rvx : ℝ
  rvy : ℝ
  sz : ℝ
  lf : ℝ
  co : ℝ
  ro : ℝ
  rsp : ℝ

/-- The `Object.assign(particle, {...})` of `createParticle` (lines 164-189)
plus the two following statements `particle.baseSize = particle.size` and
`particle.originalLife = particle.life`.  `fadeSpeed` is NOT in the assigned
key set and keeps the base object's (always absent) value. -/
noncomputable def assignFields (cfg : MTConfig) (ms : MouseState) (r : ERand)
    (now : ℝ) (base : MTParticle) : MTParticle :=
  let angle := jsAtan2 ms.velocityY ms.velocityX
  let speed := min (Real.sqrt (ms.velocityX * ms.velocityX + ms.velocityY * ms.velocityY)) 30
  let spread := 5 + speed * (1/2)
  { x := some (ms.mouseX + (r.jx - 1/2) * spread)
    y := some (ms.mouseY + (r.jy - 1/2) * spread)
    vx := some ((r.rvx - 1/2) * (3/10) + Real.cos angle * speed * (1/100))
    vy := some ((r.rvy - 1/2) * (3/10) + Real.sin angle * speed * (1/100))
    size := some (cfg.fontSize * (7/10 + r.sz * (6/10)))
    baseSize := some (cfg.fontSize * (7/10 + r.sz * (6/10)))
    life := some (cfg.particleLifetime * (8/10 + r.lf * (4/10)))
    originalLife := some (cfg.particleLifetime * (8/10 + r.lf * (4/10)))
    opacity := some 1
    rotation := some ((r.ro - 1/2) * (1/10))
    rotationSpeed := some ((r.rsp - 1/2) * (2/100))
    createdAt := some now
    fadeSpeed := base.fadeSpeed
    char := some (if 1/10 < r.c1 then (if 1/2 < r.c2 then 48 else 49)
      else 0x30A0 + (⌊r.c3 * 96⌋).toNat)
    color := cfg.colors.get? (⌊r.co * (cfg.colors.length : ℝ)⌋).toNat }

/-- The live set, the free pool and the `activeParticles` mirror. -/
structure TrailState where
  particles : List MTParticle
  particlePool : List MTParticle
  activeParticles : ℕ

def initTrail : TrailState := { particles := [], particlePool := [], activeParticles := 0 }

/-- MouseTrail.createParticle (mouse-trail-new.js lines 141-193): skip when
the pointer has been idle for over 100ms; otherwise obtain a particle — from
the pool (`pop()`, the last element), a fresh `{}` under the live ceiling, or
by shifting out the oldest live particle (which the code pushes through the
empty pool and pops right back) — assign its fields, and push it to the live
set. -/
noncomputable def createParticle (cfg : MTConfig) (ms : MouseState) (r : ERand)
    (now lastMove : ℝ) (s : TrailState) : TrailState :=
  if 100 < now - lastMove then s
  else
    match s.particlePool.getLast? with
    | some base =>
        { particles := s.particles ++ [assignFields cfg ms r now base]
          particlePool := s.particlePool.dropLast
          activeParticles := s.particles.length + 1 }
    | none =>
        if s.particles.length < cfg.maxParticles then
          { particles := s.particles ++ [assignFields cfg ms r now emptyParticle]
            particlePool := s.particlePool
            activeParticles := s.particles.length + 1 }
        else
          match s.particles with
          | [] => s
          | old :: rest =>
              { particles := rest ++ [assignFields cfg ms r now old]
                particlePool := s.particlePool
                activeParticles := rest.length + 1 }

/-- Field updates of one particle inside `updateParticles` (lines 204-215):
position from velocity, gravity on `vy`, rotation, and
`opacity -= fadeSpeed * fixedDeltaTime * 0.03` (NaN forever, see above). -/
noncomputable def stepParticle (fdt : ℝ) (p : MTParticle) : MTParticle :=
  { p with
    x := jsAdd p.x (jsMul p.vx (some (fdt * (3/100))))
    y := jsAdd p.y (jsMul p.vy (some (fdt * (3/100))))
    vy := jsAdd p.vy (some ((2/100) * fdt * (3/100)))
    rotation := jsAdd p.rotation (jsMul p.rotationSpeed (some (fdt * (3/100))))
    opacity := jsSub p.opacity (jsMul p.fadeSpeed (some (fdt * (3/100)))) }

/-- The removal test `p.opacity <= 0.01 || p.life <= 0`. -/
noncomputable def isDead (p : MTParticle) : Bool :=
  jsLeB p.opacity (some (1/100)) || jsLeB p.life (some 0)

/-- The `while (i--)` loop of `updateParticles` (lines 200-227): particles are
visited from the last index down, dead ones are spliced out and pushed to the
pool while it holds fewer than `2 * maxParticles` objects, survivors get
`p.life--`. -/
noncomputable def updGo (maxP : ℕ) (fdt : ℝ) :
    List MTParticle → List MTParticle → List MTParticle × List MTParticle
  | [], pool => ([], pool)
  | p :: rest, pool =>
      if isDead (stepParticle fdt p) then
        ((updGo maxP fdt rest pool).1,
         if (updGo maxP fdt rest pool).2.length < 2 * maxP then
           (updGo maxP fdt rest pool).2 ++ [stepParticle fdt p]
         else (updGo maxP fdt rest pool).2)
      else
        ({ stepParticle fdt p with
            life := jsSub (stepParticle fdt p).life (some 1) } ::
          (updGo maxP fdt rest pool).1,
         (updGo maxP fdt rest pool).2)

/-- MouseTrail.updateParticles (lines 195-228) with
`fixedDeltaTime = Math.min(deltaTime, 1000 / 30)`. -/
noncomputable def updateParticles (maxP : ℕ) (dt : ℝ) (s : TrailState) : TrailState :=
  let r := updGo maxP (min dt (1000 / 30)) s.particles s.particlePool
  { particles := r.1, particlePool := r.2, activeParticles := s.activeParticles }

/-- One engine operation: an emit caused by a pointer-move, or a frame update. -/
inductive MTOp where
  | emit (ms : MouseState) (r : ERand) (now lastMove : ℝ)
  | upd (dt : ℝ)

noncomputable def runOp (cfg : MTConfig) (s : TrailState) : MTOp → TrailState
  | MTOp.emit ms r now lastMove => createParticle cfg ms r now lastMove s
  | MTOp.upd dt => updateParticles cfg.maxParticles dt s

noncomputable def runOps (cfg : MTConfig) (ops : List MTOp) : TrailState :=
  ops.foldl (runOp cfg) initTrail

theorem updGo_sum_le (maxP : ℕ) (fdt : ℝ) (l pool : List MTParticle) :
    (updGo maxP fdt l pool).1.length + (updGo maxP fdt l pool).2.length ≤
      l.length + pool.length := by
  induction l with
  | nil => simp [updGo]
  | cons p rest ih =>
      rw [updGo]
      split
      · split
        · simp only [List.length_append, List.length_singleton, List.length_cons,
            List.length_nil]
          omega
        · simp only [List.length_cons]
          omega
      · simp only [List.length_cons]
        omega

/-- The reachability invariant: live set and pool together never hold more
than `maxParticles` objects. -/
theorem runOps_sum_le (cfg : MTConfig) (ops : List MTOp) :
    (runOps cfg ops).particles.length + (runOps cfg ops).particlePool.length ≤
      cfg.maxParticles := by
  suffices hstep : ∀ (s : TrailState) (op : MTOp),
      s.particles.length + s.particlePool.length ≤ cfg.maxParticles →
      (runOp cfg s op).particles.length + (runOp cfg s op).particlePool.length ≤
        cfg.maxParticles by
    have hfold : ∀ (l : List MTOp) (s : TrailState),
        s.particles.length + s.particlePool.length ≤ cfg.maxParticles →
        (l.foldl (runOp cfg) s).particles.length +
          (l.foldl (runOp cfg) s).particlePool.length ≤ cfg.maxParticles := by
      intro l
      induction l with
      | nil => intro s hs; exact hs
      | cons op rest ih => intro s hs; exact ih _ (hstep s op hs)
    exact hfold ops initTrail (by simp [initTrail])
  intro s op hs
  cases op with
  | upd dt =>
      have := updGo_sum_le cfg.maxParticles (min dt (1000 / 30))
        s.particles s.particlePool
      simpa [runOp, updateParticles] using this.trans hs
  | emit ms r now lastMove =>
      simp only [runOp, createParticle]
      split
      · exact hs
      · split
        case h_1 base heq =>
            have hne : s.particlePool ≠ [] := by
              intro hnil
              rw [hnil] at heq
              simp at heq
            have hpos : 0 < s.particlePool.length := List.length_pos.mpr hne
            simp only [List.length_append, List.length_dropLast, List.length_cons]
            simp only [List.length_nil]
            omega
        case h_2 heq =>
            have hpe : s.particlePool = [] := by
              by_contra hne2
              rw [List.getLast?_eq_getLast _ hne2] at heq
              exact absurd heq (by simp)
            split
            case isTrue hlt =>
              simp only [List.length_append, List.length_singleton, hpe,
                List.length_nil]
              omega
            case isFalse hge =>
              split
              case h_1 => exact hs
              case h_2 old rest heq2 =>
                  have : s.particles.length = rest.length + 1 := by
                    rw [heq2]; simp
                  simp only [List.length_append, List.length_cons, List.length_nil]
                  omega

/-- Claim C2: over every sequence of emit/update operations from the initial
state, the live particle count never exceeds `maxParticles`; and an emit that
proceeds (pointer recently moved) while the live count sits at `maxParticles`
shifts the oldest live particle out of the live set in that same step,
recycling its object as the newly emitted particle appended at the back. -/
theorem claim_C2 (cfg : MTConfig) (ops : List MTOp) (ms : MouseState)
    (r : ERand) (now lastMove : ℝ) :
    (runOps cfg ops).particles.length ≤ cfg.maxParticles ∧
    ((runOps cfg ops).particles.length = cfg.maxParticles →
      0 < cfg.maxParticles →
      ¬(100 < now - lastMove) →
      (createParticle cfg ms r now lastMove (runOps cfg ops)).particles =
        (runOps cfg ops).particles.tail ++
          [assignFields cfg ms r now
            ((runOps cfg ops).particles.headD emptyParticle)] ∧
      (createParticle cfg ms r now lastMove (runOps cfg ops)).particles.length =
        cfg.maxParticles) := by
  have hsum := runOps_sum_le cfg ops
  constructor
  · omega
  intro hfull hpos hmove
  have hpool : (runOps cfg ops).particlePool = [] := by
    have : (runOps cfg ops).particlePool.length = 0 := by omega
    exact List.eq_nil_of_length_eq_zero this
  have hne : (runOps cfg ops).particles ≠ [] := by
    intro hnil
    rw [hnil] at hfull
    simp at hfull
    omega
  obtain ⟨old, rest, hcons⟩ := List.exists_cons_of_ne_nil hne
  have hred : (createParticle cfg ms r now lastMove (runOps cfg ops)).particles =
      rest ++ [assignFields cfg ms r now old] := by
    simp only [createParticle]
    rw [if_neg hmove, hpool]
    simp only [List.getLast?_nil]
    rw [hcons]
    simp only [List.length_cons]
    rw [if_neg (by rw [← List.length_cons old rest, ← hcons, hfull]; omega)]
  constructor
  · rw [hred, hcons]
    simp
  · rw [hred]
    have : rest.length + 1 = cfg.maxParticles := by
      rw [← hfull, hcons]; simp
    simp only [List.length_append, List.length_cons, List.length_nil]
    omega

/-- The auto-init configuration of mouse-trail-new.js (DOMContentLoaded
handler), restricted to the fields the particle dynamics read, with
`maxParticles` lowered to 1 to reach the ceiling in one emit. -/
noncomputable def cfgW : MTConfig :=
  { maxParticles := 1
    particleLifetime := 60
    fontSize := 14
    colors := ["#00ff41", "#00cc33", "#00aa33"] }

noncomputable def msW : MouseState :=
  { mouseX := 0, mouseY := 0, velocityX := 0, velocityY := 0 }

noncomputable def rW : ERand :=
  { jx := 1/2, jy := 1/2, c1 := 1/2, c2 := 1/2, c3 := 1/2, rvx := 1/2
    rvy := 1/2, sz := 1/2, lf := 1/2, co := 1/2, ro := 1/2, rsp := 1/2 }

/-- Witness for C2: after one emit the live count is at the ceiling 1, and the
next emit replaces the single (oldest) live particle in the same step. -/
theorem claim_C2_witness :
    (runOps cfgW [MTOp.emit msW rW 0 0]).particles.length ≤ 1 ∧
    (createParticle cfgW msW rW 0 0 (runOps cfgW [MTOp.emit msW rW 0 0])).particles =
      (runOps cfgW [MTOp.emit msW rW 0 0]).particles.tail ++
        [assignFields cfgW msW rW 0
          ((runOps cfgW [MTOp.emit msW rW 0 0]).particles.headD emptyParticle)] := by
  have h := claim_C2 cfgW [MTOp.emit msW rW 0 0] msW rW 0 0
  have hlen : (runOps cfgW [MTOp.emit msW rW 0 0]).particles.length = 1 := by
    show (createParticle cfgW msW rW 0 0 initTrail).particles.length = 1
    simp only [createParticle, initTrail]
    rw [if_neg (by norm_num)]
    simp [cfgW]
  exact ⟨h.1, (h.2 hlen (by norm_num [cfgW]) (by norm_num)).1⟩

/-! ## Particle opacity over time (mouse-trail.js, MouseTrail updateParticles)

The non-pooled MouseTrail variant.  `createParticle` (lines 145-190) builds
the particle object literal; `updateParticles` (lines 192-241) moves it,
damps its velocity by `resistance^deltaFactor`, decrements `life` and sets
`opacity = (life / originalLife) * config.opacity * (0.7 + 0.3 * sin(life * 0.1))`
— a fading envelope times a sinusoidal flicker — then removes the particle
when its life is spent or it has left the canvas by a 100px margin.  All
numbers are reals; the per-call random draws are explicit parameters. -/

structure MOConfig where
  maxParticles : ℕ
  particleLifetime : ℝ
  opacity : ℝ
  fontSize : ℝ
  characters : String
  colors : List String

structure MOParticle where
  x : ℝ
  y : ℝ
  vx : ℝ
  vy : ℝ
  size : ℝ
  life : ℝ
  originalLife : ℝ
  opacity : ℝ
  rotation : ℝ
  rotationSpeed : ℝ
  char : Char
  color : Option String
  currentSize : Option ℝ

/-- The `Math.random()` draws of one `createParticle` call, in source order:
character pick, x/y jitter, vx/vy jitter, size, lifetime, color index,
opacity, rotation, rotation speed. -/
structure MORand where
  rchar : ℝ
  rjx : ℝ
  rjy : ℝ
  rvx : ℝ
  rvy : ℝ
  rsz : ℝ
  rlife : ℝ
  rcol : ℝ
  rop : ℝ
  rrot : ℝ
  rrotsp : ℝ

/-- The particle object literal of `createParticle` (mouse-trail.js lines
162-175) plus the following `particle.originalLife = particle.life`.  The
occasional second copied particle (lines 181-189) affects only the engine's
list, not this object.  `currentSize` is first written during update. -/
noncomputable def MOcreateParticle (cfg : MOConfig) (ms : MouseState)
    (r : MORand) : MOParticle :=
  let angle := jsAtan2 ms.velocityY ms.velocityX
  let speed := min (Real.sqrt (ms.velocityX * ms.velocityX + ms.velocityY * ms.velocityY)) 30
  let spread := 15 + speed * (1/2)
  { x := ms.mouseX + (r.rjx - 1/2) * spread
    y := ms.mouseY + (r.rjy - 1/2) * spread
    vx := (r.rvx - 1/2) * (3/2) + Real.cos angle * speed * (1/10)
    vy := (r.rvy - 1/2) * (3/2) + Real.sin angle * speed * (1/10)
    size := cfg.fontSize * (7/10 + r.rsz * (6/10))
    life := cfg.particleLifetime * (7/10 + r.rlife * (6/10))
    originalLife := cfg.particleLifetime * (7/10 + r.rlife * (6/10))
    opacity := 9/10 + r.rop * (1/10)
    rotation := r.rrot * Real.pi * 2
    rotationSpeed := (r.rrotsp - 1/2) * (1/10)
    char := cfg.characters.data.getD (⌊r.rchar * (cfg.characters.length : ℝ)⌋).toNat ' '
    color := cfg.colors.get? (⌊r.rcol * (cfg.colors.length : ℝ)⌋).toNat
    currentSize := none }

/-- The `Math.random()` draws of one update iteration for one particle:
horizontal jitter, air-resistance jitter, the character-change chance and the
replacement character pick. -/
structure MOURand where
  rjit : ℝ
  rres : ℝ
  rchg : ℝ
  rnew : ℝ

/-- `deltaFactor = Math.min(deltaTime / (1000 / 60), 2)`. -/
noncomputable def MOdeltaFactor (deltaTime : ℝ) : ℝ := min (deltaTime / (1000 / 60)) 2

/-- One iteration of the `updateParticles` loop body (lines 197-231) on one
particle, with `d = deltaFactor`: gravity, jittered horizontal drift,
position integration, air resistance `(0.96 + random * 0.03) ^ d`, rotation,
`life -= d`, then
`opacity = (life / originalLife) * config.opacity * (0.7 + 0.3 * sin(life * 0.1))`,
`currentSize = size * (0.7 + 0.3 * ageRatio)` and the occasional character
swap. -/
noncomputable def MOstepParticle (cfg : MOConfig) (d : ℝ) (r : MOURand)
    (p : MOParticle) : MOParticle :=
  let vy1 := p.vy + (1/100) * d
  let vx1 := p.vx + (r.rjit - 1/2) * (1/10) * d
  let x1 := p.x + vx1 * d
  let y1 := p.y + vy1 * d
  let res := 96/100 + r.rres * (3/100)
  let life1 := p.life - d
  let frac := life1 / p.originalLife
  { p with
    x := x1
    y := y1
    vx := vx1 * res ^ d
    vy := vy1 * res ^ d
    rotation := p.rotation + p.rotationSpeed * d
    life := life1
    opacity := frac * cfg.opacity * (7/10 + (3/10) * Real.sin (life1 * (1/10)))
    currentSize := some (p.size * (7/10 + (3/10) * frac))
    char := if 95/100 < r.rchg then
        cfg.characters.data.getD (⌊r.rnew * (cfg.characters.length : ℝ)⌋).toNat ' '
      else p.char }

/-- The removal test of lines 234-239, with the canvas extent `H`, `W`:
`p.life <= 0 || p.y > H + 100 || p.x < -100 || p.x > W + 100`. -/
def MOremoved (p : MOParticle) (H W : ℝ) : Prop :=
  p.life ≤ 0 ∨ H + 100 < p.y ∨ p.x < -100 ∨ W + 100 < p.x

/-- The engine configuration produced by the page's own init call
(mouse-trail.js lines 294-302: `particleLifetime: 45`, `maxParticles: 60`,
with `opacity`, `characters`, `fontSize`, `colors` left at their defaults). -/
noncomputable def cfg45 : MOConfig :=
  { maxParticles := 60
    particleLifetime := 45
    opacity := 9/10
    fontSize := 18
    characters := "01"
    colors := ["#00ff41", "#00e63d", "#00cc38", "#00b332",
               "#00992c", "#00ff88", "#00cc6a", "#00aa55"] }

/-- The lifetime draw putting the created particle's life at exactly
`10π + 4` frames (a legal value of `Math.random()`, see the counterexample). -/
noncomputable def rLdraw : ℝ := ((10 * Real.pi + 4) / 45 - 7/10) / (6/10)

noncomputable def rC5create : MORand :=
  { rchar := 0, rjx := 1/2, rjy := 1/2, rvx := 1/2, rvy := 1/2, rsz := 1/2
    rlife := rLdraw, rcol := 0, rop := 0, rrot := 0, rrotsp := 1/2 }

noncomputable def rC5step : MOURand := { rjit := 1/2, rres := 0, rchg := 1/2, rnew := 0 }

/-- A pointer at rest at the origin when the particle is emitted. -/
noncomputable def msC5 : MouseState :=
  { mouseX := 0, mouseY := 0, velocityX := 0, velocityY := 0 }

noncomputable def pC5zero : MOParticle := MOcreateParticle cfg45 msC5 rC5create

noncomputable def pC5one : MOParticle := MOstepParticle cfg45 2 rC5step pC5zero

noncomputable def pC5two : MOParticle := MOstepParticle cfg45 2 rC5step pC5one

theorem rLdraw_legal : 0 ≤ rLdraw ∧ rLdraw < 1 := by
  unfold rLdraw
  constructor
  · have h3 := Real.pi_gt_three
    have : (0:ℝ) ≤ (10 * Real.pi + 4) / 45 - 7/10 := by linarith
    linarith
  · have h4 := Real.pi_lt_four
    have : (10 * Real.pi + 4) / 45 - 7/10 < 6/10 := by linarith
    linarith

theorem pC5zero_fields :
    pC5zero.x = 0 ∧ pC5zero.y = 0 ∧ pC5zero.vx = 0 ∧ pC5zero.vy = 0 ∧
    pC5zero.life = 10 * Real.pi + 4 ∧ pC5zero.originalLife = 10 * Real.pi + 4 ∧
    pC5zero.opacity = 9/10 := by
  have hsp : min (Real.sqrt ((0:ℝ) * 0 + 0 * 0)) 30 = 0 := by simp
  refine ⟨?_, ?_, ?_, ?_, ?_, ?_, ?_⟩
  all_goals simp only [pC5zero, MOcreateParticle, msC5, rC5create, cfg45, rLdraw]
  · rw [hsp]; ring
  · rw [hsp]; ring
  · rw [hsp]; ring
  · rw [hsp]; ring
  · field_simp
    ring
  · field_simp
    ring
  · norm_num

theorem pC5one_fields :
    pC5one.x = 0 ∧ pC5one.y = 1/25 ∧ pC5one.vx = 0 ∧
    (0 ≤ pC5one.vy ∧ pC5one.vy ≤ 1/50) ∧
    pC5one.life = 10 * Real.pi + 2 ∧ pC5one.originalLife = 10 * Real.pi + 4 ∧
    pC5one.opacity = (10 * Real.pi + 2) / (10 * Real.pi + 4) * (9/10) *
      (7/10 - (3/10) * Real.sin (1/5)) := by
  obtain ⟨h0x, h0y, h0vx, h0vy, h0life, h0ol, h0op⟩ := pC5zero_fields
  refine ⟨?_, ?_, ?_, ⟨?_, ?_⟩, ?_, ?_, ?_⟩
  all_goals simp only [pC5one, MOstepParticle, rC5step, cfg45]
  · rw [h0x, h0vx]; ring
  · rw [h0y, h0vy]; ring
  · rw [h0vx]; ring
  · rw [h0vy]
    have hb : (0:ℝ) ≤ (96/100 + 0 * (3/100)) ^ (2:ℝ) :=
      Real.rpow_nonneg (by norm_num) _
    nlinarith [hb]
  · rw [h0vy]
    have hb0 : (0:ℝ) ≤ (96/100 + 0 * (3/100)) ^ (2:ℝ) :=
      Real.rpow_nonneg (by norm_num) _
    have hb1 : ((96:ℝ)/100 + 0 * (3/100)) ^ (2:ℝ) ≤ 1 :=
      Real.rpow_le_one (by norm_num) (by norm_num) (by norm_num)
    nlinarith [hb0, hb1]
  · rw [h0life]; ring
  · exact h0ol
  · rw [h0life, h0ol]
    have harg : (10 * Real.pi + 4 - 2) * (1/10) = Real.pi + 1/5 := by ring
    rw [harg]
    have hsin : Real.sin (Real.pi + 1/5) = -Real.sin (1/5) := by
      rw [Real.sin_add, Real.sin_pi, Real.cos_pi]
      ring
    rw [hsin]
    ring

theorem pC5two_fields :
    pC5two.x = 0 ∧ pC5two.y ≤ 3/25 ∧ pC5two.life = 10 * Real.pi ∧
    pC5two.opacity = 10 * Real.pi / (10 * Real.pi + 4) * (9/10) * (7/10) := by
  obtain ⟨h1x, h1y, h1vx, h1vy, h1life, h1ol, h1op⟩ := pC5one_fields
  refine ⟨?_, ?_, ?_, ?_⟩
  all_goals simp only [pC5two, MOstepParticle, rC5step, cfg45]
  · rw [h1x, h1vx]; ring
  · rw [h1y]
    nlinarith [h1vy.1, h1vy.2]
  · rw [h1life]; ring
  · rw [h1life, h1ol]
    have harg : (10 * Real.pi + 2 - 2) * (1/10) = Real.pi := by ring
    rw [harg, Real.sin_pi]
    ring

/-- Claim C5, counterexample.  In the engine configured by the page's own
init call (`particleLifetime = 45`, default `opacity = 0.9`), a particle
created while the pointer rests at the origin, with the displayed legal
`Math.random()` lifetime draw, has life exactly `10π + 4`.  Two update steps
at the capped `deltaFactor = 2` bring its life through `10π + 2` to `10π`;
neither step removes it, yet its opacity strictly INCREASES from the first
step to the second (the `0.7 + 0.3·sin(life·0.1)` flicker term passes the
trough `sin(π + 0.2) < 0` and returns to `sin(π) = 0`), refuting
monotonic non-increase. -/
theorem claim_C5_cex :
    (0 ≤ rLdraw ∧ rLdraw < 1) ∧
    ¬ MOremoved pC5one 500 500 ∧
    ¬ MOremoved pC5two 500 500 ∧
    pC5one.opacity < pC5two.opacity := by
  obtain ⟨h1x, h1y, h1vx, h1vy, h1life, h1ol, h1op⟩ := pC5one_fields
  obtain ⟨h2x, h2y, h2life, h2op⟩ := pC5two_fields
  have hπ := Real.pi_gt_three
  refine ⟨rLdraw_legal, ?_, ?_, ?_⟩
  · unfold MOremoved
    push_neg
    refine ⟨by rw [h1life]; linarith, by rw [h1y]; norm_num,
      by rw [h1x]; norm_num, by rw [h1x]; norm_num⟩
  · unfold MOremoved
    push_neg
    refine ⟨by rw [h2life]; linarith, by linarith [h2y],
      by rw [h2x]; norm_num, by rw [h2x]; norm_num⟩
  · rw [h1op, h2op]
    have hs : (99/500 : ℝ) < Real.sin (1/5) := by
      have hcube := Real.sin_gt_sub_cube (x := 1/5) (by norm_num) (by norm_num)
      nlinarith [hcube]
    have hc : (0:ℝ) < 10 * Real.pi + 4 := by linarith
    have hu : (0:ℝ) < (10 * Real.pi + 4)⁻¹ := inv_pos.mpr hc
    have hmul : (99/500 : ℝ) * (10 * Real.pi + 2) <
        Real.sin (1/5) * (10 * Real.pi + 2) :=
      mul_lt_mul_of_pos_right hs (by linarith)
    have key : (10 * Real.pi + 2) * ((9/10) * (7/10 - (3/10) * Real.sin (1/5))) <
        10 * Real.pi * ((9/10) * (7/10)) := by nlinarith [hmul, hπ]
    calc (10 * Real.pi + 2) / (10 * Real.pi + 4) * (9/10) *
          (7/10 - (3/10) * Real.sin (1/5))
        = (10 * Real.pi + 2) * ((9/10) * (7/10 - (3/10) * Real.sin (1/5))) *
            (10 * Real.pi + 4)⁻¹ := by ring
      _ < 10 * Real.pi * ((9/10) * (7/10)) * (10 * Real.pi + 4)⁻¹ :=
          mul_lt_mul_of_pos_right key hu
      _ = 10 * Real.pi / (10 * Real.pi + 4) * (9/10) * (7/10) := by ring

/-- Claim C5 as amended: a particle's remaining life strictly decreases at
every update step, so the fading envelope `life / originalLife * opacity`
decreases monotonically; the particle's opacity stays below this envelope
while its life is nonnegative (the flicker factor `0.7 + 0.3·sin(life·0.1)`
lies in `[0.4, 1]`, so opacity itself can transiently increase, as the
counterexample shows); and when a particle is removed because its life has
run out (`life ≤ 0`), its opacity at that step is at most 0.01.  A particle
removed for leaving the canvas bounds can still carry a large opacity. -/
theorem claim_C5_amended (cfg : MOConfig) (d : ℝ) (r : MOURand) (p : MOParticle)
    (hol : 0 < p.originalLife) (hcfg : 0 ≤ cfg.opacity) (hd : 0 < d) :
    (MOstepParticle cfg d r p).life < p.life ∧
    (MOstepParticle cfg d r p).originalLife = p.originalLife ∧
    (0 ≤ (MOstepParticle cfg d r p).life →
      (MOstepParticle cfg d r p).opacity ≤
        (MOstepParticle cfg d r p).life / p.originalLife * cfg.opacity) ∧
    ((MOstepParticle cfg d r p).life ≤ 0 →
      (MOstepParticle cfg d r p).opacity ≤ 1/100) := by
  have hs1 := Real.sin_le_one ((p.life - d) * (1/10))
  have hs2 := Real.neg_one_le_sin ((p.life - d) * (1/10))
  refine ⟨?_, ?_, ?_, ?_⟩
  all_goals simp only [MOstepParticle]
  · linarith
  · intro hge
    have hfrac : 0 ≤ (p.life - d) / p.originalLife := div_nonneg hge hol.le
    have hA : 0 ≤ (p.life - d) / p.originalLife * cfg.opacity :=
      mul_nonneg hfrac hcfg
    nlinarith [hA, hs1]
  · intro hle
    have hfrac : (p.life - d) / p.originalLife ≤ 0 :=
      div_nonpos_iff.mpr (Or.inr ⟨hle, hol.le⟩)
    have hfc : (p.life - d) / p.originalLife * cfg.opacity ≤ 0 := by
      nlinarith [mul_nonneg (neg_nonneg.2 hfrac) hcfg]
    have hfac : (0:ℝ) ≤ 7/10 + (3/10) * Real.sin ((p.life - d) * (1/10)) := by
      nlinarith [hs2]
    nlinarith [mul_nonneg (neg_nonneg.2 hfc) hfac]

/-- Witness for the amended C5 at the counterexample's own creation state:
one step from `pC5zero` at `deltaFactor = 2` under the page's
configuration. -/
theorem claim_C5_amended_witness :
    (MOstepParticle cfg45 2 rC5step pC5zero).life < pC5zero.life ∧
    (MOstepParticle cfg45 2 rC5step pC5zero).originalLife = pC5zero.originalLife ∧
    (0 ≤ (MOstepParticle cfg45 2 rC5step pC5zero).life →
      (MOstepParticle cfg45 2 rC5step pC5zero).opacity ≤
        (MOstepParticle cfg45 2 rC5step pC5zero).life / pC5zero.originalLife *
          cfg45.opacity) ∧
    ((MOstepParticle cfg45 2 rC5step pC5zero).life ≤ 0 →
      (MOstepParticle cfg45 2 rC5step pC5zero).opacity ≤ 1/100) := by
  exact claim_C5_amended cfg45 2 rC5step pC5zero
    (by rw [pC5zero_fields.2.2.2.2.2.1]; nlinarith [Real.pi_gt_three])
    (by show (0:ℝ) ≤ cfg45.opacity; norm_num [cfg45])
    (by norm_num)

end Portfolio
